import Mathlib

/-!
Shallow embedding of `start_aviator_system.py` (Aviator System Launcher V19.3)
and verification of its specification.

The script is a process supervisor: it holds a static registry
`SERVICES_CONFIG`, launches one OS process per entry (`start_service`),
polls each service's HTTP health endpoint (`check_service_health`),
monitors liveness in a loop, and tears everything down
(`shutdown_all_services`).  External effects (spawning, HTTP, clock) are
modelled as explicit parameters; the control flow and data of the Python
code are translated function by function.
-/

namespace Aviator

/-! ## Data model: the service registry (lines 41-66 of the source) -/

/-- One entry of `SERVICES_CONFIG`: a service descriptor with the same
fields as the Python dict. -/
structure ServiceConfig where
  script : String
  port : Nat
  health_endpoint : String
  description : String
deriving Repr, DecidableEq

/-- The shipped registry, in the source's insertion order.  Note that both
`realtime_detector` and `aviator_patterns_engine` declare port 8002. -/
def SERVICES_CONFIG : List (String × ServiceConfig) :=
  [ ("realtime_detector",
      { script := "microservicios/realtime_detector/main.py"
        port := 8002
        health_endpoint := "/health"
        description := "Detector en Tiempo Real" }),
    ("aviator_patterns_engine",
      { script := "microservicios/aviator_patterns_engine/main.py"
        port := 8002
        health_endpoint := "/health"
        description := "Motor de Patrones Aviator" }),
    ("main_dashboard",
      { script := "dashboards/main_dashboard.py"
        port := 8501
        health_endpoint := "/health"
        description := "Dashboard Principal" }),
    ("integrated_dashboard",
      { script := "dashboards/integrated_dashboard.py"
        port := 8502
        health_endpoint := "/health"
        description := "Dashboard Integrado" }) ]

/-- Whether the registry assigns the same port to two distinct entries.
This is a property of the data, stated for the spec's uniqueness
invariant; the Python code computes nothing like it. -/
def hasDuplicatePort (reg : List (String × ServiceConfig)) : Bool :=
  !(reg.map (fun s => s.2.port)).Nodup

/-! ## `start_service` command construction (lines 114-132) -/

/-- Python's `needle in hay` substring test on strings. -/
def strIn (needle hay : String) : Bool :=
  hay.toList.tails.any (fun t => needle.toList.isPrefixOf t)

/-- Python's `hay.endswith(suf)`. -/
def pyEndsWith (hay suf : String) : Bool :=
  suf.toList.isSuffixOf hay.toList

/-- Left-to-right, non-overlapping replacement of `pat` by `rep` on a char
list, the semantics of Python's `str.replace`.  The fuel argument makes
the recursion structural; `pyReplace` supplies enough fuel for the whole
input. -/
def pyReplaceAux (pat rep : List Char) : Nat → List Char → List Char
  | _, [] => []
  | 0, hay => hay
  | fuel + 1, c :: rest =>
    if pat.isPrefixOf (c :: rest) && !pat.isEmpty then
      rep ++ pyReplaceAux pat rep fuel ((c :: rest).drop pat.length)
    else
      c :: pyReplaceAux pat rep fuel rest

/-- Python's `hay.replace(pat, rep)` (for a non-empty pattern, the only way
the source uses it). -/
def pyReplace (hay pat rep : String) : String :=
  ⟨pyReplaceAux pat.toList rep.toList hay.toList.length hay.toList⟩

/-- The argv built by `start_service` for a given interpreter path, script
path and port, mirroring the `if / elif / else` on lines 115-132:
`streamlit run` when the path mentions streamlit or is a `.py` dashboard,
`uvicorn` when it mentions fastapi or `main.py`, otherwise direct
invocation. -/
def buildCmd (python script : String) (port : Nat) : List String :=
  if strIn "streamlit" script || (pyEndsWith script ".py" && strIn "dashboard" script) then
    [python, "-m", "streamlit", "run", script,
     "--server.port", toString port,
     "--server.headless", "true",
     "--browser.gatherUsageStats", "false"]
  else if strIn "fastapi" script || strIn "main.py" script then
    [python, "-m", "uvicorn",
     pyReplace (pyReplace script "/" ".") ".py" "" ++ ":app",
     "--host", "0.0.0.0",
     "--port", toString port,
     "--reload"]
  else
    [python, script]

/-- What the spawned process does around the 2-second settle check in
`start_service` (lines 135-155): spawning raises, the process exits
before the check (its exit code and captured output are then reported),
or it is still alive (`poll()` returns `None`). -/
inductive LaunchOutcome where
  | spawnException (msg : String)
  | exitedEarly (exitCode : Int) (stdout stderr : String)
  | alive (pid : Nat)
deriving Repr, DecidableEq

/-- Result of `start_service` as a function of the spawn outcome: `some pid`
exactly when the process survived the settle check, `none` otherwise
(lines 147-159). -/
def start_service (outcome : LaunchOutcome) : Option Nat :=
  match outcome with
  | .spawnException _ => none
  | .exitedEarly _ _ _ => none
  | .alive pid => some pid

/-- The failure report logged on the early-exit branch (lines 150-155):
`communicate()` drains the captured stdout and stderr and both are logged.
The exit code that `poll()` returned is discarded — it appears neither in
the log nor in the return value, which is why the match drops it. -/
def launchFailureReport (outcome : LaunchOutcome) : Option (String × String) :=
  match outcome with
  | .exitedEarly _ o e => some (o, e)
  | _ => none

/-! ## `check_service_health` (lines 161-182) -/

/-- The probe URL built on line 165: `http://localhost:{port}{endpoint}`. -/
def healthURL (config : ServiceConfig) : String :=
  "http://localhost:" ++ toString config.port ++ config.health_endpoint

/-- Outcome of a single `requests.get`: a transport-level failure
(`requests.exceptions.RequestException`) or a response with an HTTP
status code. -/
inductive ProbeResult where
  | netErr
  | status (code : Nat)
deriving Repr, DecidableEq

/-- Whether a probe outcome is the HTTP 200 the loop accepts (line 173). -/
def probeOk (r : ProbeResult) : Bool :=
  match r with
  | .status 200 => true
  | _ => false

/-- The polling loop of `check_service_health` (lines 169-179), over a
stream of probe outcomes and latencies.  `t` is the elapsed time, `n` the
next attempt index.  Each attempt costs `min (lat n) 5` seconds (the
`requests.get` call carries `timeout=5`) and a failed attempt is followed
by `time.sleep(2)`.  Returns the boolean result and the elapsed time at
return. -/
def healthLoop (probe : Nat → ProbeResult) (lat : Nat → Nat) (timeout : Nat)
    (t n : Nat) : Bool × Nat :=
  if t < timeout then
    if probeOk (probe n) then
      (true, t + min (lat n) 5)
    else
      healthLoop probe lat timeout (t + min (lat n) 5 + 2) (n + 1)
  else
    (false, t)
termination_by timeout - t
decreasing_by omega

/-- `check_service_health` for a config against a world that answers each
URL with a stream of probe outcomes and latencies: the loop is run on the
stream for this config's URL, starting at time 0 with a 30-second default
timeout parameter made explicit. -/
def check_service_health (config : ServiceConfig)
    (world : String → Nat → ProbeResult) (lat : String → Nat → Nat)
    (timeout : Nat) : Bool × Nat :=
  healthLoop (world (healthURL config)) (lat (healthURL config)) timeout 0 0

/-- Elapsed time at which attempt `n` starts, when all earlier attempts
failed: the sum of each earlier attempt's (capped) latency plus the
2-second sleep. -/
def timeAt (lat : Nat → Nat) : Nat → Nat
  | 0 => 0
  | n + 1 => timeAt lat n + (min (lat n) 5 + 2)

/-- Attempt `n` is actually issued by the loop (with `t = 0`, `n = 0`
start): every earlier attempt failed and the loop condition still admitted
it. -/
def attemptIssued (probe : Nat → ProbeResult) (lat : Nat → Nat)
    (timeout : Nat) (n : Nat) : Prop :=
  timeAt lat n < timeout ∧ ∀ m < n, probeOk (probe m) = false

/-! ## `shutdown_all_services` (lines 192-211) -/

/-- How one tracked process behaves during shutdown: already exited at the
`poll()` check; exits within the 10-second `wait` grace period after
`terminate()`; survives the grace period (`TimeoutExpired`); or the
terminate/wait call raises some other exception (the generic `except`
branch on lines 207-208). -/
inductive ShutdownBehavior where
  | alreadyDead
  | exitsInGrace
  | survivesGrace
  | raisesOther (msg : String)
deriving Repr, DecidableEq

/-- The per-process actions taken by `shutdown_all_services`. -/
structure ShutdownActions where
  terminateCalled : Bool
  killCalled : Bool
  waitedUnconditionally : Bool
deriving Repr, DecidableEq

/-- Actions for one entry, mirroring lines 197-208: live processes get
`terminate()`; only a `TimeoutExpired` on the 10-second `wait` escalates
to `kill()` followed by an unconditional `wait()`. -/
def shutdownOne (b : ShutdownBehavior) : ShutdownActions :=
  match b with
  | .alreadyDead => ⟨false, false, false⟩
  | .exitsInGrace => ⟨true, false, false⟩
  | .survivesGrace => ⟨true, true, true⟩
  | .raisesOther _ => ⟨true, false, false⟩

/-- `shutdown_all_services`: iterate over the live table acting on each
entry, then `running_processes.clear()` (line 210).  Returns the table
after the call and the recorded actions per entry. -/
def shutdown_all_services (table : List (String × ShutdownBehavior)) :
    List (String × ShutdownBehavior) × List (String × ShutdownActions) :=
  ([], table.map (fun e => (e.1, shutdownOne e.2)))

/-! ## The monitor loop body (lines 302-305) -/

/-- One tick of the stable-phase monitor: each entry is paired with whether
its process is still alive (`poll() is None`).  Dead entries are deleted
from the table and their names logged as warnings; live entries are kept.
Written as the source's iteration over a snapshot of the table. -/
def monitorTick (table : List (String × Bool)) :
    List (String × Bool) × List String :=
  match table with
  | [] => ([], [])
  | (name, alive) :: rest =>
    let (t, w) := monitorTick rest
    if alive then ((name, alive) :: t, w) else (t, name :: w)

/-! ## `main` (lines 225-321) -/

/-- The environment a run of `main` executes in: whether the dependency and
script checks pass, what each named service's process does at launch, and
whether probing a given URL eventually sees an HTTP 200 within
`check_service_health`'s window. -/
structure Env where
  depsOk : Bool
  scriptsOk : Bool
  launch : String → LaunchOutcome
  healthOk : String → Bool

/-- The observable outcome of a run of `main`. -/
structure RunResult where
  attempted : List String
  launched : List String
  browserOpened : Bool
  monitorEntered : Bool
  exitCode : Nat
deriving Repr, DecidableEq

/-- `main` (lines 237-321) with `shutdown_requested` false throughout, as a
function of the registry and environment: the dependency and script checks
abort with exit code 1; otherwise every registry entry is launched in
order, only successfully launched services are health-checked, and the
browser/monitor/exit-0 path is taken exactly when all of those report
healthy.  The monitor loop ends on the interrupt path and `main` returns 0
after the `finally` shutdown. -/
def mainRun (reg : List (String × ServiceConfig)) (env : Env) : RunResult :=
  if env.depsOk = false then ⟨[], [], false, false, 1⟩
  else if env.scriptsOk = false then ⟨[], [], false, false, 1⟩
  else
    let attempted := reg.map (fun s => s.1)
    let launchedSpecs := reg.filter (fun s => (start_service (env.launch s.1)).isSome)
    let launched := launchedSpecs.map (fun s => s.1)
    let allHealthy := launchedSpecs.all (fun s => env.healthOk (healthURL s.2))
    if allHealthy then ⟨attempted, launched, true, true, 0⟩
    else ⟨attempted, launched, false, false, 1⟩

/-! ## Concrete environments used in closed theorems -/

/-- An environment where every external check and launch succeeds. -/
def allOkEnv : Env :=
  { depsOk := true
    scriptsOk := true
    launch := fun _ => .alive 1
    healthOk := fun _ => true }

/-- An environment where the first service's process exits immediately with
code 1 and every other service launches and reports healthy. -/
def launchFailEnv : Env :=
  { depsOk := true
    scriptsOk := true
    launch := fun name =>
      if name = "realtime_detector" then .exitedEarly 1 "" "boom" else .alive 1
    healthOk := fun _ => true }

/-- An environment where every service launches but the probe of the port
8002 health URL never sees a 200. -/
def unhealthyEnv : Env :=
  { depsOk := true
    scriptsOk := true
    launch := fun _ => .alive 1
    healthOk := fun url => !(url = "http://localhost:8002/health") }

/-! ## Claims about shutdown (C5, C6) and the monitor tick (C9) -/

/-- C5: after `shutdown_all_services` returns from any starting state the
live table is empty, every record of the run is kept per entry, every
process alive at entry received `terminate()`, and exactly the processes
that did not exit within the 10-second grace period received `kill()`
followed by an unconditional `wait()`. -/
theorem C5_shutdown_empties_and_escalates
    (table : List (String × ShutdownBehavior)) :
    (shutdown_all_services table).1 = [] ∧
    ∀ e ∈ table,
      (e.1, shutdownOne e.2) ∈ (shutdown_all_services table).2 ∧
      (e.2 ≠ ShutdownBehavior.alreadyDead →
        (shutdownOne e.2).terminateCalled = true) ∧
      ((shutdownOne e.2).killCalled = true ↔
        e.2 = ShutdownBehavior.survivesGrace) ∧
      (e.2 = ShutdownBehavior.survivesGrace →
        (shutdownOne e.2).waitedUnconditionally = true) := by
  refine ⟨rfl, ?_⟩
  intro e he
  obtain ⟨n, b⟩ := e
  refine ⟨List.mem_map_of_mem _ he, ?_, ?_, ?_⟩
  · intro hne
    cases b <;> simp_all [shutdownOne]
  · cases b <;> simp [shutdownOne]
  · intro hs
    cases b <;> simp_all [shutdownOne]

/-- C5 witness: the guarantees evaluated on a concrete three-entry table. -/
theorem C5_shutdown_witness :
    (shutdown_all_services
      [("a", ShutdownBehavior.alreadyDead),
       ("b", ShutdownBehavior.exitsInGrace),
       ("c", ShutdownBehavior.survivesGrace)]).1 = [] ∧
    (shutdownOne ShutdownBehavior.survivesGrace).killCalled = true := by
  have h := C5_shutdown_empties_and_escalates
    [("a", ShutdownBehavior.alreadyDead),
     ("b", ShutdownBehavior.exitsInGrace),
     ("c", ShutdownBehavior.survivesGrace)]
  refine ⟨h.1, ?_⟩
  exact ((h.2 ("c", ShutdownBehavior.survivesGrace) (by simp)).2.2.1).mpr rfl

/-- C6: `shutdown_all_services` is idempotent — the first call always leaves
the table empty, and a second invocation on the resulting state touches no
process: it records no terminate or kill action and leaves the table
empty. -/
theorem C6_shutdown_idempotent (table : List (String × ShutdownBehavior)) :
    (shutdown_all_services table).1 = [] ∧
    shutdown_all_services (shutdown_all_services table).1 = ([], []) := by
  exact ⟨rfl, rfl⟩

/-- C9: one monitor tick keeps exactly the entries whose process is still
alive, unchanged and in order; it emits one warning per dead entry, naming
it; and it never adds an entry (no restart), the new table being a
sublist of the old one. -/
theorem C9_monitor_tick_removes_dead_keeps_alive
    (table : List (String × Bool)) :
    (monitorTick table).1 = table.filter (fun e => e.2) ∧
    (monitorTick table).2 = (table.filter (fun e => !e.2)).map (fun e => e.1) ∧
    (monitorTick table).1.Sublist table := by
  induction table with
  | nil => simp [monitorTick]
  | cons e rest ih =>
    obtain ⟨n, alive⟩ := e
    rcases alive with _ | _
    · simpa [monitorTick] using
        ⟨ih.1, ih.2.1, List.Sublist.cons _ ih.2.2⟩
    · simpa [monitorTick] using ⟨ih.1, ih.2.1, ih.2.2⟩

/-! ## Claims about validation and the degraded path (C1, C2) -/

/-- C1: the shipped registry carries a duplicate port (8002 twice), yet a
run of `main` in an environment where the dependency and script checks
pass performs no port validation and attempts to launch all four
services — no fail-fast occurs before launching. -/
theorem C1_duplicate_port_not_validated :
    hasDuplicatePort SERVICES_CONFIG = true ∧
    (mainRun SERVICES_CONFIG allOkEnv).attempted =
      ["realtime_detector", "aviator_patterns_engine",
       "main_dashboard", "integrated_dashboard"] ∧
    (mainRun SERVICES_CONFIG allOkEnv).exitCode = 0 := by
  refine ⟨by decide, ?_, ?_⟩ <;> rfl

/-- C2 counterexample: in a run where `realtime_detector` fails to launch
(its process exits immediately) and every other service launches and is
healthy, the supervisor still opens the browser, enters the monitor
loop, and returns exit code 0 — not the Degraded path the claim
requires. -/
theorem C2_launch_failure_still_exits_zero :
    start_service (launchFailEnv.launch "realtime_detector") = none ∧
    (mainRun SERVICES_CONFIG launchFailEnv).browserOpened = true ∧
    (mainRun SERVICES_CONFIG launchFailEnv).monitorEntered = true ∧
    (mainRun SERVICES_CONFIG launchFailEnv).exitCode = 0 := by
  refine ⟨?_, ?_, ?_, ?_⟩ <;> rfl

/-- C2 amended: the Degraded path (no monitor loop, no browser, exit code
1) is taken exactly when some successfully launched service fails its
health check; services that fail to launch are excluded from health
verification and do not by themselves force the Degraded path. -/
theorem C2_degraded_iff_launched_service_unhealthy
    (reg : List (String × ServiceConfig)) (env : Env)
    (hdeps : env.depsOk = true) (hscripts : env.scriptsOk = true) :
    ((mainRun reg env).monitorEntered = false ∧
     (mainRun reg env).browserOpened = false ∧
     (mainRun reg env).exitCode = 1) ↔
    ∃ s ∈ reg, (start_service (env.launch s.1)).isSome = true ∧
      env.healthOk (healthURL s.2) = false := by
  unfold mainRun
  rw [hdeps, hscripts]
  simp only [Bool.true_eq_false, if_false]
  by_cases hall :
      (reg.filter (fun s => (start_service (env.launch s.1)).isSome)).all
        (fun s => env.healthOk (healthURL s.2)) = true
  · rw [if_pos hall]
    simp only [Bool.true_eq_false, false_and, false_iff]
    rintro ⟨s, hs, hl, hun⟩
    have := List.all_eq_true.mp hall s (List.mem_filter.mpr ⟨hs, hl⟩)
    rw [hun] at this
    cases this
  · rw [if_neg hall]
    simp only [true_and, and_true, true_iff]
    simp only [List.all_eq_true, not_forall] at hall
    obtain ⟨s, hsf, hps⟩ := hall
    obtain ⟨hs, hl⟩ := List.mem_filter.mp hsf
    exact ⟨s, hs, hl, by simpa using hps⟩

/-- C2 witness for the amended claim: with every service launched but the
port 8002 probe never healthy, the run takes the Degraded path. -/
theorem C2_degraded_witness :
    (mainRun SERVICES_CONFIG unhealthyEnv).monitorEntered = false ∧
    (mainRun SERVICES_CONFIG unhealthyEnv).browserOpened = false ∧
    (mainRun SERVICES_CONFIG unhealthyEnv).exitCode = 1 := by
  refine (C2_degraded_iff_launched_service_unhealthy SERVICES_CONFIG
    unhealthyEnv rfl rfl).mpr ?_
  refine ⟨("realtime_detector",
    { script := "microservicios/realtime_detector/main.py"
      port := 8002
      health_endpoint := "/health"
      description := "Detector en Tiempo Real" }), ?_, ?_, ?_⟩
  · simp [SERVICES_CONFIG]
  · rfl
  · rfl

/-! ## Launch phase (C7) and invocation shapes (C8, C10) -/

/-- C7 counterexample: the exit code of an immediately-exiting process is
not reported.  Two early exits differing only in their exit code (1
versus 7) produce the very same failure report — the captured stdout and
stderr only — and the same `None` result, so no observable of
`start_service` carries the exit code the claim says is reported. -/
theorem C7_exit_code_not_reported :
    launchFailureReport (LaunchOutcome.exitedEarly 1 "out" "err") =
      launchFailureReport (LaunchOutcome.exitedEarly 7 "out" "err") ∧
    start_service (LaunchOutcome.exitedEarly 1 "out" "err") =
      start_service (LaunchOutcome.exitedEarly 7 "out" "err") ∧
    launchFailureReport (LaunchOutcome.exitedEarly 1 "out" "err") =
      some ("out", "err") := by
  exact ⟨rfl, rfl, rfl⟩

/-- C7 amended: with the dependency and script checks passing, the launch
phase attempts every spec of the registry in registry order, whatever
each launch's outcome; a launch whose process exits immediately yields no
tracked process and is reported with its captured stdout and stderr — not
with its exit code, which the code discards. -/
theorem C7_all_specs_attempted_in_order
    (reg : List (String × ServiceConfig)) (env : Env)
    (hdeps : env.depsOk = true) (hscripts : env.scriptsOk = true) :
    (mainRun reg env).attempted = reg.map (fun s => s.1) ∧
    ∀ name code out err,
      env.launch name = LaunchOutcome.exitedEarly code out err →
      start_service (env.launch name) = none ∧
      launchFailureReport (env.launch name) = some (out, err) := by
  constructor
  · unfold mainRun
    rw [hdeps, hscripts]
    simp only [Bool.true_eq_false, if_false]
    by_cases hall :
        (reg.filter (fun s => (start_service (env.launch s.1)).isSome)).all
          (fun s => env.healthOk (healthURL s.2)) = true
    · rw [if_pos hall]
    · rw [if_neg hall]
  · intro name code out err h
    rw [h]
    exact ⟨rfl, rfl⟩

/-- C7 witness: with the first service exiting immediately and the rest
launching, every one of the four registry entries is still attempted, in
order, and the failed launch is reported by its captured output. -/
theorem C7_witness :
    (mainRun SERVICES_CONFIG launchFailEnv).attempted =
      ["realtime_detector", "aviator_patterns_engine",
       "main_dashboard", "integrated_dashboard"] ∧
    start_service (launchFailEnv.launch "realtime_detector") = none ∧
    launchFailureReport (launchFailEnv.launch "realtime_detector") =
      some ("", "boom") := by
  have h := C7_all_specs_attempted_in_order SERVICES_CONFIG launchFailEnv rfl rfl
  refine ⟨?_, h.2 "realtime_detector" 1 "" "boom" rfl⟩
  rw [h.1]
  rfl

/-- C8: for every interpreter path, mapping the command builder over the
shipped registry yields exactly one uvicorn invocation per http-api spec
(module target from the script path, all interfaces, its port, reload)
and one streamlit-run invocation per dashboard spec (script, its port,
headless, telemetry disabled); and a script matching none of the
category patterns is invoked directly with no flags. -/
theorem C8_cmd_matches_category (py : String) :
    SERVICES_CONFIG.map (fun s => buildCmd py s.2.script s.2.port) =
      [[py, "-m", "uvicorn", "microservicios.realtime_detector.main:app",
        "--host", "0.0.0.0", "--port", "8002", "--reload"],
       [py, "-m", "uvicorn", "microservicios.aviator_patterns_engine.main:app",
        "--host", "0.0.0.0", "--port", "8002", "--reload"],
       [py, "-m", "streamlit", "run", "dashboards/main_dashboard.py",
        "--server.port", "8501", "--server.headless", "true",
        "--browser.gatherUsageStats", "false"],
       [py, "-m", "streamlit", "run", "dashboards/integrated_dashboard.py",
        "--server.port", "8502", "--server.headless", "true",
        "--browser.gatherUsageStats", "false"]] ∧
    ∀ script port,
      strIn "streamlit" script = false →
      strIn "dashboard" script = false →
      strIn "fastapi" script = false →
      strIn "main.py" script = false →
      buildCmd py script port = [py, script] := by
  constructor
  · rfl
  · intro script port h1 h2 h3 h4
    unfold buildCmd
    rw [h1, h2, h3, h4]
    simp

/-- C8 witness: a script outside every category pattern is run directly. -/
theorem C8_witness :
    buildCmd "python3" "tools/cleanup_job.sh" 1234 =
      ["python3", "tools/cleanup_job.sh"] :=
  (C8_cmd_matches_category "python3").2 "tools/cleanup_job.sh" 1234
    (by decide) (by decide) (by decide) (by decide)

/-- Registry lookup by service name, as used by the launcher's iteration. -/
def cfgOf (name : String) : Option ServiceConfig :=
  SERVICES_CONFIG.lookup name

/-- C10: `realtime_detector` and `aviator_patterns_engine` share port 8002:
both uvicorn invocations request `--port 8002`, both health probes target
the same URL `http://localhost:8002/health`, and therefore
`check_service_health` returns the same answer for both services against
any world of probe responses. -/
theorem C10_shared_port_same_probe (py : String) :
    (cfgOf "realtime_detector").map healthURL =
      some "http://localhost:8002/health" ∧
    (cfgOf "aviator_patterns_engine").map healthURL =
      some "http://localhost:8002/health" ∧
    (cfgOf "realtime_detector").map (fun c => buildCmd py c.script c.port) =
      some [py, "-m", "uvicorn", "microservicios.realtime_detector.main:app",
            "--host", "0.0.0.0", "--port", "8002", "--reload"] ∧
    (cfgOf "aviator_patterns_engine").map (fun c => buildCmd py c.script c.port) =
      some [py, "-m", "uvicorn",
            "microservicios.aviator_patterns_engine.main:app",
            "--host", "0.0.0.0", "--port", "8002", "--reload"] ∧
    ∀ world lat timeout,
      (cfgOf "realtime_detector").map
        (fun c => check_service_health c world lat timeout) =
      (cfgOf "aviator_patterns_engine").map
        (fun c => check_service_health c world lat timeout) := by
  exact ⟨rfl, rfl, rfl, rfl, fun world lat timeout => rfl⟩

/-! ## The health-check loop (C3, C4) -/

/-- The attempt-time schedule is monotone in the attempt index. -/
lemma timeAt_mono (lat : Nat → Nat) {d n : Nat} (h : d ≤ n) :
    timeAt lat d ≤ timeAt lat n := by
  induction h with
  | refl => exact le_rfl
  | step h ih => exact le_trans ih (Nat.le_add_right _ _)

/-- Unfolding of `healthLoop` starting at the schedule time of attempt `d`:
the loop reports success exactly when some later attempt is reached inside
the timeout window, all attempts in between fail, and that attempt sees a
200.  The bound `k` on the remaining window drives the induction. -/
lemma healthLoop_true_iff_aux (probe : Nat → ProbeResult) (lat : Nat → Nat)
    (timeout : Nat) :
    ∀ k d, timeout ≤ timeAt lat d + k →
      ((healthLoop probe lat timeout (timeAt lat d) d).1 = true ↔
        ∃ n, d ≤ n ∧ timeAt lat n < timeout ∧
          (∀ m, d ≤ m → m < n → probeOk (probe m) = false) ∧
          probeOk (probe n) = true) := by
  intro k
  induction k with
  | zero =>
    intro d hk
    rw [healthLoop]
    rw [if_neg (by omega)]
    simp only [Bool.false_eq_true, false_iff]
    rintro ⟨n, hdn, hlt, -, -⟩
    have := timeAt_mono lat hdn
    omega
  | succ k ih =>
    intro d hk
    by_cases hlt : timeAt lat d < timeout
    · rw [healthLoop, if_pos hlt]
      by_cases hp : probeOk (probe d) = true
      · rw [if_pos hp]
        constructor
        · intro _
          exact ⟨d, le_rfl, hlt, fun m hm1 hm2 => absurd hm2 (by omega), hp⟩
        · intro _
          rfl
      · rw [if_neg hp]
        have hpf : probeOk (probe d) = false := by
          cases hprobe : probeOk (probe d) with
          | false => rfl
          | true => exact absurd hprobe hp
        have harg : timeAt lat d + min (lat d) 5 + 2 = timeAt lat (d + 1) := by
          show _ = timeAt lat d + (min (lat d) 5 + 2)
          omega
        rw [harg]
        rw [ih (d + 1) (by
          have h2 : timeAt lat (d + 1) = timeAt lat d + (min (lat d) 5 + 2) := rfl
          omega)]
        constructor
        · rintro ⟨n, hdn, hlt2, hall, hok⟩
          refine ⟨n, by omega, hlt2, fun m hm1 hm2 => ?_, hok⟩
          rcases Nat.eq_or_lt_of_le hm1 with h1 | h1
          · rw [← h1]
            exact hpf
          · exact hall m h1 hm2
        · rintro ⟨n, hdn, hlt2, hall, hok⟩
          have hne : n ≠ d := by
            rintro rfl
            rw [hok] at hpf
            cases hpf
          exact ⟨n, by omega, hlt2, fun m hm1 hm2 => hall m (by omega) hm2, hok⟩
    · rw [healthLoop, if_neg hlt]
      simp only [Bool.false_eq_true, false_iff]
      rintro ⟨n, hdn, hlt2, -, -⟩
      have := timeAt_mono lat hdn
      omega

/-- C3: the health check returns true exactly when some probe attempt it
issues inside the timeout window answers HTTP 200; on any combination of
transport failures and non-200 statuses exhausting the window it returns
false (the function is total and boolean-valued: no outcome raises). -/
theorem C3_health_true_iff_200_within_window (probe : Nat → ProbeResult)
    (lat : Nat → Nat) (timeout : Nat) :
    (healthLoop probe lat timeout 0 0).1 = true ↔
    ∃ n, attemptIssued probe lat timeout n ∧ probeOk (probe n) = true := by
  have h := healthLoop_true_iff_aux probe lat timeout timeout 0 (by
    show timeout ≤ 0 + timeout
    omega)
  rw [show timeAt lat 0 = 0 from rfl] at h
  rw [h]
  constructor
  · rintro ⟨n, -, hlt, hall, hok⟩
    exact ⟨n, ⟨hlt, fun m hm => hall m (Nat.zero_le m) hm⟩, hok⟩
  · rintro ⟨n, ⟨hlt, hall⟩, hok⟩
    exact ⟨n, Nat.zero_le n, hlt, fun m _ hm => hall m hm, hok⟩

/-- Invariant bound on the loop's return time: started at an elapsed time
within `timeout + 6`, it returns at an elapsed time within `timeout + 6`
(one admitted attempt can add at most 5 seconds of request latency plus
the 2-second sleep past the admission check). -/
lemma healthLoop_return_le (probe : Nat → ProbeResult) (lat : Nat → Nat)
    (timeout : Nat) :
    ∀ k t n, timeout ≤ t + k → t ≤ timeout + 6 →
      (healthLoop probe lat timeout t n).2 ≤ timeout + 6 := by
  intro k
  induction k with
  | zero =>
    intro t n hk ht
    rw [healthLoop, if_neg (by omega)]
    exact ht
  | succ k ih =>
    intro t n hk ht
    by_cases hlt : t < timeout
    · rw [healthLoop, if_pos hlt]
      have hmin : min (lat n) 5 ≤ 5 := Nat.min_le_right _ _
      by_cases hp : probeOk (probe n) = true
      · rw [if_pos hp]
        show t + min (lat n) 5 ≤ timeout + 6
        omega
      · rw [if_neg hp]
        exact ih (t + min (lat n) 5 + 2) (n + 1) (by omega) (by omega)
    · rw [healthLoop, if_neg hlt]
      exact ht

/-- C4 amended: the health check returns within `timeout + 7` seconds of
wall clock — not within `timeout` — because each probe attempt is bounded
by the 5-second request timeout (which exceeds the 2-second polling
interval) and a final attempt admitted just before the window closes
still pays its latency plus the 2-second sleep. -/
theorem C4_health_check_time_bounded (probe : Nat → ProbeResult)
    (lat : Nat → Nat) (timeout : Nat) :
    (healthLoop probe lat timeout 0 0).2 ≤ timeout + 7 :=
  le_trans
    (healthLoop_return_le probe lat timeout timeout 0 0 (by omega) (by omega))
    (by omega)

/-- C4 counterexample: with a 30-second timeout and every probe a transport
failure taking the full 5-second request timeout, the loop only returns
after 35 seconds of elapsed time — beyond the given timeout — so the
claimed bounds (return within `timeout`; per-attempt cost below the
2-second interval) fail. -/
theorem C4_counterexample :
    (healthLoop (fun _ => ProbeResult.netErr) (fun _ => 5) 30 0 0).2 = 35 ∧
    ¬ ((healthLoop (fun _ => ProbeResult.netErr) (fun _ => 5) 30 0 0).2 ≤ 30) := by
  have h : healthLoop (fun _ => ProbeResult.netErr) (fun _ => 5) 30 0 0 =
      (false, 35) := by
    rw [healthLoop, if_pos (by omega), if_neg (by simp [probeOk])]
    rw [healthLoop, if_pos (by omega), if_neg (by simp [probeOk])]
    rw [healthLoop, if_pos (by omega), if_neg (by simp [probeOk])]
    rw [healthLoop, if_pos (by omega), if_neg (by simp [probeOk])]
    rw [healthLoop, if_pos (by omega), if_neg (by simp [probeOk])]
    rw [healthLoop, if_neg (by omega)]
    norm_num
  rw [h]
  exact ⟨rfl, by omega⟩

end Aviator
